import Mathlib

/-!
Verification of the UDF-portrait-landscape-posters image pipeline.

The development shallowly embeds the two core procedures of the
repository — `createHighQualityPoster` (poster compositor, `src/src/App.tsx`)
and `getCroppedImg` (crop extractor, declared in `src/unnamed/part_000`) —
together with the App-level working-set state machine
(`handleUpload`, `handleCameraCapture`, `handleCrop`, `handleDownloadAll`,
`handleDownloadSingle`, `removeImage`).

Raster images are modelled as dimensioned pixel functions with
premultiplied-alpha rational channels; canvas `drawImage` with a
destination rectangle covering the whole canvas is modelled as a
stretch-sample followed by Porter-Duff source-over per pixel.
-/

/-- A pixel colour with premultiplied-alpha channels in `[0,1]` (rationals).
With premultiplied channels, canvas source-over is
`out = src + dst * (1 - src.a)` componentwise. -/
structure RGBA where
  r : ℚ
  g : ℚ
  b : ℚ
  a : ℚ
deriving DecidableEq, Repr

/-- A decoded raster image: pixel dimensions plus a pixel lookup function. -/
structure Img where
  width : ℕ
  height : ℕ
  pix : ℕ → ℕ → RGBA

/-- Porter-Duff source-over on premultiplied-alpha pixels:
the canvas compositing operation used by `ctx.drawImage`. -/
def overPix (s d : RGBA) : RGBA :=
  { r := s.r + d.r * (1 - s.a)
    g := s.g + d.g * (1 - s.a)
    b := s.b + d.b * (1 - s.a)
    a := s.a + d.a * (1 - s.a) }

/-- Sampling an image stretched to fill a `W × H` destination rectangle:
output position `(i, j)` reads the source pixel its centre maps to
(`drawImage(img, 0, 0, W, H)` scaling). -/
def sampleFill (img : Img) (W H i j : ℕ) : RGBA :=
  img.pix (i * img.width / W) (j * img.height / H)

/-- `ctx.drawImage(img, 0, 0, canvas.width, canvas.height)`: stretch `img`
over the whole canvas and composite it source-over onto the canvas. -/
def drawImageFill (canvas : Img) (img : Img) : Img :=
  { width := canvas.width
    height := canvas.height
    pix := fun i j => overPix (sampleFill img canvas.width canvas.height i j) (canvas.pix i j) }

/-- The fully transparent freshly created canvas of `document.createElement`. -/
def blankCanvas (W H : ℕ) : Img :=
  { width := W, height := H, pix := fun _ _ => ⟨0, 0, 0, 0⟩ }

/-- The fixed output resolution chosen in `createHighQualityPoster`:
`aspectRatio === 3/4` selects 1200×1600, anything else 1600×1200. -/
def posterDims (aspectRatio : ℚ) : ℕ × ℕ :=
  if aspectRatio = 3 / 4 then (1200, 1600) else (1600, 1200)

/-- The drawing phase of `createHighQualityPoster` once both inputs are
decoded: on a fresh canvas at the fixed resolution, draw the cropped
image stretched to fill, then draw the template stretched to fill on top,
and return the flattened surface (`toDataURL` keeps its pixels). -/
def composePoster (cropped template : Img) (aspectRatio : ℚ) : Img :=
  let dims := posterDims aspectRatio
  drawImageFill (drawImageFill (blankCanvas dims.1 dims.2) cropped) template

/-- C1 -- For every cropped image and template, `composePoster`
(`createHighQualityPoster`) produces exactly 1200×1600 pixels in Portrait
mode (ratio 3/4) and exactly 1600×1200 pixels in Landscape mode
(ratio 4/3, the initial default), independent of the input dimensions. -/
theorem composePoster_fixed_dims (cropped template : Img) :
    (composePoster cropped template (3 / 4)).width = 1200 ∧
    (composePoster cropped template (3 / 4)).height = 1600 ∧
    (composePoster cropped template (4 / 3)).width = 1600 ∧
    (composePoster cropped template (4 / 3)).height = 1200 := by
  have h34 : ((3 : ℚ) / 4 = 3 / 4) = True := by simp
  have h43 : ((4 : ℚ) / 3 = 3 / 4) = False := by
    simp only [eq_iff_iff, iff_false]
    norm_num
  refine ⟨?_, ?_, ?_, ?_⟩ <;>
    simp [composePoster, posterDims, drawImageFill, blankCanvas, h34, h43]

/-- C3 -- `composePoster` draws the cropped image first, stretched over the
whole surface, and the template second on top, also stretched over the
whole surface; hence at every output pixel where the (stretched) template
is fully opaque, the poster pixel equals the template pixel. -/
theorem composePoster_template_on_top (cropped template : Img) (aspectRatio : ℚ)
    (i j : ℕ)
    (hop : (sampleFill template (posterDims aspectRatio).1 (posterDims aspectRatio).2 i j).a = 1) :
    (composePoster cropped template aspectRatio).pix i j =
      sampleFill template (posterDims aspectRatio).1 (posterDims aspectRatio).2 i j := by
  simp only [composePoster, drawImageFill, blankCanvas, overPix, hop]
  simp only [sub_self, mul_zero, add_zero]
  rw [← hop]

/-- A 1×1 solid opaque red test image. -/
def solidRed : Img :=
  { width := 1, height := 1, pix := fun _ _ => ⟨1, 0, 0, 1⟩ }

/-- A 1×1 solid opaque blue test image. -/
def solidBlue : Img :=
  { width := 1, height := 1, pix := fun _ _ => ⟨0, 0, 1, 1⟩ }

/-- Witness for C3: with a concrete opaque template, the poster pixel at
`(0,0)` is the template's pixel. -/
theorem composePoster_template_on_top_witness :
    (composePoster solidRed solidBlue (4 / 3)).pix 0 0 =
      sampleFill solidBlue (posterDims (4 / 3)).1 (posterDims (4 / 3)).2 0 0 :=
  composePoster_template_on_top solidRed solidBlue (4 / 3) 0 0 (by
    simp [sampleFill, solidBlue])

/-- Settlement outcomes of the `createHighQualityPoster` promise. -/
inductive PosterError where
  | DecodeError
  | CtxUnavailable
deriving DecidableEq, Repr

/-- Asynchronous decode events delivered to the two `Image` objects of
`createHighQualityPoster`: each input fires exactly one of `onload`
(`loadCropped` / `loadTemplate`) or `onerror`
(`errorCropped` / `errorTemplate`). -/
inductive LoadEvent where
  | loadCropped
  | loadTemplate
  | errorCropped
  | errorTemplate
deriving DecidableEq, Repr

/-- The observable run state of one `createHighQualityPoster` call:
the `imagesLoaded` counter, how many `drawImage` calls have been issued
onto the output canvas, and the promise settlement (first settle wins). -/
structure PosterRun where
  imagesLoaded : ℕ
  drawCalls : ℕ
  settled : Option (Except PosterError Img)

/-- Settle the promise if it is not yet settled (a later `resolve` or
`reject` is a no-op). -/
def settleOnce (st : PosterRun) (r : Except PosterError Img) : Option (Except PosterError Img) :=
  match st.settled with
  | some prior => some prior
  | none => some r

/-- One event handler invocation of `createHighQualityPoster`:
`onerror` rejects; `onload` runs `onImageLoad`, which increments
`imagesLoaded` and, exactly when the counter reaches 2, either rejects
(canvas context unavailable) or issues the two draws and resolves with
the composed poster. -/
def stepPoster (cropped template : Img) (aspectRatio : ℚ) (ctxOk : Bool)
    (st : PosterRun) (ev : LoadEvent) : PosterRun :=
  match ev with
  | .errorCropped => { st with settled := settleOnce st (.error .DecodeError) }
  | .errorTemplate => { st with settled := settleOnce st (.error .DecodeError) }
  | .loadCropped =>
      if st.imagesLoaded + 1 = 2 then
        if ctxOk then
          { imagesLoaded := st.imagesLoaded + 1
            drawCalls := st.drawCalls + 2
            settled := settleOnce st (.ok (composePoster cropped template aspectRatio)) }
        else
          { imagesLoaded := st.imagesLoaded + 1
            drawCalls := st.drawCalls
            settled := settleOnce st (.error .CtxUnavailable) }
      else { st with imagesLoaded := st.imagesLoaded + 1 }
  | .loadTemplate =>
      if st.imagesLoaded + 1 = 2 then
        if ctxOk then
          { imagesLoaded := st.imagesLoaded + 1
            drawCalls := st.drawCalls + 2
            settled := settleOnce st (.ok (composePoster cropped template aspectRatio)) }
        else
          { imagesLoaded := st.imagesLoaded + 1
            drawCalls := st.drawCalls
            settled := settleOnce st (.error .CtxUnavailable) }
      else { st with imagesLoaded := st.imagesLoaded + 1 }

/-- Run one `createHighQualityPoster` call against a sequence of decode
events, starting from the initial state (counter 0, nothing drawn,
promise pending). -/
def runPoster (cropped template : Img) (aspectRatio : ℚ) (ctxOk : Bool)
    (events : List LoadEvent) : PosterRun :=
  events.foldl (stepPoster cropped template aspectRatio ctxOk) ⟨0, 0, none⟩

/-- The event of the cropped-image `Image` object. -/
def isCroppedEvent : LoadEvent → Bool
  | .loadCropped => true
  | .errorCropped => true
  | _ => false

/-- The event of the template `Image` object. -/
def isTemplateEvent : LoadEvent → Bool
  | .loadTemplate => true
  | .errorTemplate => true
  | _ => false

/-- An error event. -/
def isErrorEvent : LoadEvent → Bool
  | .errorCropped => true
  | .errorTemplate => true
  | _ => false

/-- A complete delivery of decode outcomes: each of the two images fires
exactly one event, in either order. -/
def validEvents (es : List LoadEvent) : Prop :=
  ∃ c t, isCroppedEvent c = true ∧ isTemplateEvent t = true ∧ (es = [c, t] ∨ es = [t, c])

/-- C2 -- `createHighQualityPoster` draws nothing until both decodes have
resolved (after only one load the draw count is still 0), and the settled
result is the same composed poster whichever decode finishes first. -/
theorem runPoster_join (cropped template : Img) (aspectRatio : ℚ) :
    (runPoster cropped template aspectRatio true [.loadCropped]).drawCalls = 0 ∧
    (runPoster cropped template aspectRatio true [.loadTemplate]).drawCalls = 0 ∧
    (runPoster cropped template aspectRatio true [.loadCropped, .loadTemplate]).settled =
      some (.ok (composePoster cropped template aspectRatio)) ∧
    (runPoster cropped template aspectRatio true [.loadTemplate, .loadCropped]).settled =
      some (.ok (composePoster cropped template aspectRatio)) ∧
    (runPoster cropped template aspectRatio true [.loadCropped, .loadTemplate]).settled =
      (runPoster cropped template aspectRatio true [.loadTemplate, .loadCropped]).settled :=
  ⟨rfl, rfl, rfl, rfl, rfl⟩

/-- C4 -- If either decode fires `onerror`, the whole
`createHighQualityPoster` call rejects with the decode failure and no
drawing onto the output ever happens: no partial composite is produced. -/
theorem runPoster_decode_failure (cropped template : Img) (aspectRatio : ℚ)
    (ctxOk : Bool) (es : List LoadEvent)
    (hval : validEvents es) (herr : es.any isErrorEvent = true) :
    (runPoster cropped template aspectRatio ctxOk es).settled =
      some (.error .DecodeError) ∧
    (runPoster cropped template aspectRatio ctxOk es).drawCalls = 0 := by
  obtain ⟨c, t, hc, ht, hes | hes⟩ := hval <;> subst hes <;>
    cases c <;> cases t <;>
      simp_all [runPoster, stepPoster, settleOnce, isCroppedEvent, isTemplateEvent, isErrorEvent]

/-- Witness for C4: a failing template decode followed by a successful
cropped-image decode rejects with the decode error and draws nothing. -/
theorem runPoster_decode_failure_witness :
    (runPoster solidRed solidBlue (4 / 3) true [.errorTemplate, .loadCropped]).settled =
      some (.error .DecodeError) ∧
    (runPoster solidRed solidBlue (4 / 3) true [.errorTemplate, .loadCropped]).drawCalls = 0 :=
  runPoster_decode_failure solidRed solidBlue (4 / 3) true [.errorTemplate, .loadCropped]
    ⟨.loadCropped, .errorTemplate, rfl, rfl, Or.inr rfl⟩ rfl

/-- A pixel-space crop rectangle (`PixelCrop` in `src/unnamed/part_000`):
`{x, y, width, height}` in the coordinate space of a source image. -/
structure PixelCrop where
  x : ℤ
  y : ℤ
  width : ℤ
  height : ℤ
deriving DecidableEq, Repr

/-- Failure kinds of the crop extractor. -/
inductive CropError where
  | InvalidRectangleError
  | DecodeError
deriving DecidableEq, Repr

/-- A rectangle violating the bounds invariant of the spec data model:
negative origin, non-positive width or height, or extent exceeding the
source image's dimensions. -/
def invalidRect (s : Img) (r : PixelCrop) : Prop :=
  r.x < 0 ∨ r.y < 0 ∨ r.width ≤ 0 ∨ r.height ≤ 0 ∨
    (s.width : ℤ) < r.x + r.width ∨ (s.height : ℤ) < r.y + r.height

instance (s : Img) (r : PixelCrop) : Decidable (invalidRect s r) :=
  inferInstanceAs (Decidable (_ ∨ _))

/-- Modelled from the spec: the implementation of `getCroppedImg` is not
under `src/` (only its declaration, in `src/unnamed/part_000`); this
follows the crop-extractor contract and algorithm of the spec.
The source argument is the decode result of the source handle (`none`
when the source cannot be decoded as a raster image). A null or invalid
rectangle fails with `InvalidRectangleError`; a decode failure fails with
`DecodeError`; otherwise the output surface is sized exactly
`rect.width × rect.height` and the pixel region
`[rect.x, rect.y, rect.width, rect.height]` is copied to offset `(0, 0)`
with no scaling. -/
def getCroppedImg (source : Option Img) (pixelCrop : Option PixelCrop) :
    Except CropError Img :=
  match pixelCrop with
  | none => .error .InvalidRectangleError
  | some r =>
      match source with
      | none => .error .DecodeError
      | some s =>
          if invalidRect s r then .error .InvalidRectangleError
          else
            .ok { width := r.width.toNat
                  height := r.height.toNat
                  pix := fun i j => s.pix (r.x.toNat + i) (r.y.toNat + j) }

/-- C5 -- For every decodable source image and every crop rectangle
satisfying the bounds invariant, `getCroppedImg` succeeds with an image
whose pixel dimensions are exactly the rectangle's width and height and
whose pixels are the rectangle's region copied without scaling. -/
theorem getCroppedImg_valid (s : Img) (r : PixelCrop)
    (hx : 0 ≤ r.x) (hy : 0 ≤ r.y) (hw : 0 < r.width) (hh : 0 < r.height)
    (hxe : r.x + r.width ≤ (s.width : ℤ)) (hye : r.y + r.height ≤ (s.height : ℤ)) :
    ∃ out, getCroppedImg (some s) (some r) = .ok out ∧
      (out.width : ℤ) = r.width ∧ (out.height : ℤ) = r.height ∧
      ∀ i j : ℕ, out.pix i j = s.pix (r.x.toNat + i) (r.y.toNat + j) := by
  have hinv : ¬ invalidRect s r := by
    simp only [invalidRect, not_or, not_lt, not_le]
    exact ⟨hx, hy, hw, hh, hxe, hye⟩
  refine ⟨{ width := r.width.toNat, height := r.height.toNat,
            pix := fun i j => s.pix (r.x.toNat + i) (r.y.toNat + j) }, ?_, ?_, ?_, fun i j => rfl⟩
  · simp [getCroppedImg, hinv]
  · exact Int.toNat_of_nonneg hw.le
  · exact Int.toNat_of_nonneg hh.le

/-- Witness for C5: the 400×450 crop at `(100, 50)` of an 800×600 source
succeeds with a 400×450 output copying the region. -/
theorem getCroppedImg_valid_witness :
    ∃ out,
      getCroppedImg (some { width := 800, height := 600, pix := fun _ _ => ⟨1, 0, 0, 1⟩ })
          (some ⟨100, 50, 400, 450⟩) = .ok out ∧
      (out.width : ℤ) = 400 ∧ (out.height : ℤ) = 450 ∧
      ∀ i j : ℕ, out.pix i j =
        Img.pix { width := 800, height := 600, pix := fun _ _ => ⟨1, 0, 0, 1⟩ }
          ((100 : ℤ).toNat + i) ((50 : ℤ).toNat + j) :=
  getCroppedImg_valid { width := 800, height := 600, pix := fun _ _ => ⟨1, 0, 0, 1⟩ }
    ⟨100, 50, 400, 450⟩ (by decide) (by decide) (by decide) (by decide)
    (by decide) (by decide)

/-- C6 -- `getCroppedImg` fails with `InvalidRectangleError` for every
invalid crop rectangle — a null rectangle, or (on a decodable source) a
rectangle with negative origin, non-positive width or height, or extent
exceeding the source's dimensions — and returns no image in these cases. -/
theorem getCroppedImg_invalid (source : Option Img) (s : Img) (r : PixelCrop)
    (hbad : invalidRect s r) :
    getCroppedImg source none = .error .InvalidRectangleError ∧
    getCroppedImg (some s) (some r) = .error .InvalidRectangleError := by
  exact ⟨rfl, by simp [getCroppedImg, hbad]⟩

/-- Witness for C6: a rectangle overflowing an 800×600 source (and the
null rectangle) are rejected with `InvalidRectangleError`. -/
theorem getCroppedImg_invalid_witness :
    getCroppedImg (some solidRed) none = .error .InvalidRectangleError ∧
    getCroppedImg
        (some { width := 800, height := 600, pix := fun _ _ => ⟨1, 0, 0, 1⟩ })
        (some ⟨500, 0, 400, 450⟩) = .error .InvalidRectangleError :=
  getCroppedImg_invalid (some solidRed)
    { width := 800, height := 600, pix := fun _ _ => ⟨1, 0, 0, 1⟩ }
    ⟨500, 0, 400, 450⟩ (by decide)

/-- An opaque handle for a committed cropped image: it records the
`(source, rectangle)` pair `getCroppedImg` derived it from. -/
structure CroppedHandle where
  source : String
  rect : PixelCrop
deriving DecidableEq, Repr

/-- The `ImageData` record of `App.tsx`: one WorkItem of the working set. -/
structure ImageData where
  id : String
  src : String
  croppedImage : Option CroppedHandle
  crop : ℤ × ℤ
  zoom : ℚ
  croppedAreaPixels : Option PixelCrop
deriving DecidableEq, Repr

/-- The `useState` cells of the `App` component that the working-set
operations read and write. -/
structure AppState where
  images : List ImageData
  currentImageIndex : ℤ
  crop : ℤ × ℤ
  zoom : ℚ
  croppedAreaPixels : Option PixelCrop
  aspectRatio : ℚ
  template : String
deriving DecidableEq, Repr

/-- The initial `useState` values: empty working set, no active item,
Landscape ratio 4/3 with its template. -/
def initialAppState : AppState :=
  { images := []
    currentImageIndex := -1
    crop := (0, 0)
    zoom := 1
    croppedAreaPixels := none
    aspectRatio := 4 / 3
    template := "template4"
  }

/-- JavaScript array indexing `l[i]`: `undefined` (here `none`) for a
negative or out-of-bounds index. -/
def getAt (l : List ImageData) (i : ℤ) : Option ImageData :=
  if 0 ≤ i then l[i.toNat]? else none

/-- The derived `currentImage` value of `App`:
`currentImageIndex >= 0 ? images[currentImageIndex] : null`. -/
def currentImage (s : AppState) : Option ImageData :=
  if 0 ≤ s.currentImageIndex then getAt s.images s.currentImageIndex else none

/-- `onCropComplete`: the interactive cropping collaborator reports the
latest pixel-space crop rectangle into the single session-wide cell. -/
def onCropComplete (s : AppState) (rect : PixelCrop) : AppState :=
  { s with croppedAreaPixels := some rect }

/-- `handleUpload` after all file readers finish: append the freshly read
images and point the active index at 0 (or -1 if nothing was read).
An empty file list never reaches the state updates. -/
def handleUpload (s : AppState) (newImages : List ImageData) : AppState :=
  if newImages.isEmpty then s
  else
    { s with
      images := s.images ++ newImages
      currentImageIndex := if 0 < newImages.length then 0 else -1 }

/-- `handleCameraCapture` after the reader finishes: append the captured
image and point the active index at the previous list length. -/
def handleCameraCapture (s : AppState) (newImage : ImageData) : AppState :=
  { s with
    images := s.images ++ [newImage]
    currentImageIndex := (s.images.length : ℤ) }

/-- The image-grid click handler: `setCurrentImageIndex(index)`. -/
def selectImage (s : AppState) (i : ℤ) : AppState :=
  { s with currentImageIndex := i }

/-- `handleCrop` (commit): guard on a missing active item, then `await` the
crop extractor on the active item's source with the session-wide
`croppedAreaPixels`; the `decode` oracle supplies the decode result of
each encoded source handle. Every `getCroppedImg` rejection — the null
rectangle (the explicit `none` branch), a rectangle invalid for this
source, or an undecodable source — is caught, logged, and leaves the
state unchanged; only on success are the result and the used rectangle
stored into exactly the active item. -/
def handleCrop (decode : String → Option Img) (s : AppState) : AppState :=
  match getAt s.images s.currentImageIndex with
  | none => s
  | some img =>
      match s.croppedAreaPixels with
      | none => s
      | some r =>
          match getCroppedImg (decode img.src) (some r) with
          | .error _ => s
          | .ok _ =>
              { s with
                images := s.images.mapIdx fun idx it =>
                  if (idx : ℤ) = s.currentImageIndex then
                    { it with croppedImage := some ⟨img.src, r⟩, croppedAreaPixels := some r }
                  else it }

/-- Whether an extractor call resolved (`true`) or rejected (`false`). -/
def extractOk : Except CropError Img → Bool
  | .ok _ => true
  | .error _ => false

/-- `removeImage`: drop the item with the given id; if the active index
falls past the end of the filtered list, clamp it to
`Math.max(0, filtered.length - 1)`. -/
def removeImage (s : AppState) (imageId : String) : AppState :=
  let filtered := s.images.filter fun img => img.id != imageId
  { s with
    images := filtered
    currentImageIndex :=
      if (filtered.length : ℤ) ≤ s.currentImageIndex then
        max 0 ((filtered.length : ℤ) - 1)
      else s.currentImageIndex }

/-- C10 -- Switching the active image (`setCurrentImageIndex`) changes only
the active index: the working set and the session-wide crop position,
zoom, reported crop rectangle, aspect ratio and template all persist, so
a subsequent commit (`handleCrop`) on the newly selected item feeds the
extractor the most recently reported crop rectangle, even one computed
for the previously active item: if the extractor accepts that rectangle
against this item's source, exactly it is committed; if the extractor
rejects, the caught failure leaves the state unchanged. -/
theorem selectImage_only_changes_index (decode : String → Option Img) (s : AppState)
    (i : ℤ) (img : ImageData) (r : PixelCrop) :
    (selectImage s i).images = s.images ∧
    (selectImage s i).crop = s.crop ∧
    (selectImage s i).zoom = s.zoom ∧
    (selectImage s i).croppedAreaPixels = s.croppedAreaPixels ∧
    (selectImage s i).aspectRatio = s.aspectRatio ∧
    (selectImage s i).template = s.template ∧
    (selectImage s i).currentImageIndex = i ∧
    (getAt s.images i = some img → s.croppedAreaPixels = some r →
      extractOk (getCroppedImg (decode img.src) (some r)) = true →
      getAt (handleCrop decode (selectImage s i)).images i =
        some { img with croppedImage := some ⟨img.src, r⟩, croppedAreaPixels := some r }) ∧
    (getAt s.images i = some img → s.croppedAreaPixels = some r →
      extractOk (getCroppedImg (decode img.src) (some r)) = false →
      handleCrop decode (selectImage s i) = selectImage s i) := by
  refine ⟨rfl, rfl, rfl, rfl, rfl, rfl, rfl, ?_, ?_⟩
  · intro himg hr hok
    have hi : 0 ≤ i := by
      by_contra hneg
      simp [getAt, hneg] at himg
    have hget : s.images[i.toNat]? = some img := by
      simpa [getAt, hi] using himg
    have hsel : getAt (selectImage s i).images (selectImage s i).currentImageIndex = some img :=
      himg
    cases hres : getCroppedImg (decode img.src) (some r) with
    | error e => rw [hres] at hok; simp [extractOk] at hok
    | ok out =>
        simp only [handleCrop, selectImage] at hsel ⊢
        rw [hsel, hr]
        simp [hres, getAt, hi, List.getElem?_mapIdx, hget, Int.toNat_of_nonneg hi]
  · intro himg hr hbad
    have hsel : getAt (selectImage s i).images (selectImage s i).currentImageIndex = some img :=
      himg
    cases hres : getCroppedImg (decode img.src) (some r) with
    | ok out => rw [hres] at hbad; simp [extractOk] at hbad
    | error e =>
        simp only [handleCrop, selectImage] at hsel ⊢
        rw [hsel, hr]
        simp [hres]

/-- A concrete two-item working set for witnesses: item "a" committed is
not needed; item "b" is uncommitted. -/
def demoItemA : ImageData :=
  { id := "a", src := "src-a", croppedImage := none, crop := (0, 0), zoom := 1
    croppedAreaPixels := none }

/-- Second concrete WorkItem. -/
def demoItemB : ImageData :=
  { id := "b", src := "src-b", croppedImage := none, crop := (0, 0), zoom := 1
    croppedAreaPixels := none }

/-- A session holding the two demo items with item 0 active and a
reported crop rectangle pending. -/
def demoState : AppState :=
  { images := [demoItemA, demoItemB]
    currentImageIndex := 0
    crop := (0, 0)
    zoom := 1
    croppedAreaPixels := some ⟨100, 50, 400, 450⟩
    aspectRatio := 4 / 3
    template := "template4" }

/-- A concrete decode oracle for witnesses: the source of item "b" decodes
to an 800×600 raster; every other handle (including item "a"'s source)
fails to decode. -/
def demoDecode : String → Option Img
  | "src-b" => some { width := 800, height := 600, pix := fun _ _ => ⟨1, 0, 0, 1⟩ }
  | _ => none

/-- Witness for C10: selecting item 1 of the demo session and committing
runs the extractor with the pending rectangle, which it accepts against
item "b"'s 800×600 source, so the rectangle is stored into item "b";
selecting item 0, whose source fails to decode, leaves the session
unchanged by the commit. -/
theorem selectImage_only_changes_index_witness :
    getAt (handleCrop demoDecode (selectImage demoState 1)).images 1 =
      some { demoItemB with
              croppedImage := some ⟨"src-b", ⟨100, 50, 400, 450⟩⟩
              croppedAreaPixels := some ⟨100, 50, 400, 450⟩ } ∧
    handleCrop demoDecode (selectImage demoState 0) = selectImage demoState 0 :=
  ⟨((selectImage_only_changes_index demoDecode demoState 1 demoItemB
      ⟨100, 50, 400, 450⟩).2.2.2.2.2.2.2.1) (by decide) (by decide) (by decide),
   ((selectImage_only_changes_index demoDecode demoState 0 demoItemA
      ⟨100, 50, 400, 450⟩).2.2.2.2.2.2.2.2) (by decide) (by decide) (by decide)⟩

/-- The batch-export filename scheme: `poster-<n>.png`. -/
def posterName (n : ℕ) : String := "poster-" ++ toString n ++ ".png"

/-- A download handed to the browser: the suggested filename and the
poster inputs (`createHighQualityPoster` arguments) its data URL was
produced from. -/
structure Download where
  filename : String
  cropped : CroppedHandle
  templateSrc : String
  aspectRatio : ℚ
deriving DecidableEq, Repr

/-- The observable actions of an export handler, in program order:
producing a poster (`compose`, one awaited `createHighQualityPoster`
call), handing a finished poster to the download mechanism (`save`,
the anchor `click()`), and the fixed `setTimeout` delay (`wait`). -/
inductive ExportAction where
  | compose (cropped : CroppedHandle) (templateSrc : String) (aspectRatio : ℚ)
  | save (d : Download)
  | wait (ms : ℕ)
deriving DecidableEq, Repr

/-- The body of the `for` loop of `handleDownloadAll`, carrying the loop
counter `i`: produce the poster of the `i`-th completed item, hand it to
the download mechanism as `poster-<i+1>.png`, sleep 500 ms, continue. -/
def downloadLoop (tmpl : String) (ar : ℚ) : ℕ → List CroppedHandle → List ExportAction
  | _, [] => []
  | i, c :: rest =>
      .compose c tmpl ar ::
        .save ⟨posterName (i + 1), c, tmpl, ar⟩ ::
          .wait 500 :: downloadLoop tmpl ar (i + 1) rest

/-- `handleDownloadAll`: filter the committed items (non-null
`croppedImage`), return early when there are none, otherwise run the
sequential download loop over them in list order. -/
def handleDownloadAll (s : AppState) : List ExportAction :=
  let completedImages := s.images.filterMap fun img => img.croppedImage
  if completedImages.isEmpty then []
  else downloadLoop s.template s.aspectRatio 0 completedImages

/-- `handleDownloadSingle`: look up the item by id; return early unless it
exists and is committed; otherwise produce its poster and hand it over as
`poster-<imageId>.png`. -/
def handleDownloadSingle (s : AppState) (imageId : String) : List ExportAction :=
  match s.images.find? fun img => img.id == imageId with
  | none => []
  | some image =>
      match image.croppedImage with
      | none => []
      | some c =>
          [.compose c s.template s.aspectRatio,
           .save ⟨"poster-" ++ imageId ++ ".png", c, s.template, s.aspectRatio⟩]

/-- The downloads handed over along a trace, in order. -/
def savesOf (trace : List ExportAction) : List Download :=
  trace.filterMap fun a =>
    match a with
    | .save d => some d
    | _ => none

/-- The poster productions along a trace, in order. -/
def composesOf (trace : List ExportAction) : List CroppedHandle :=
  trace.filterMap fun a =>
    match a with
    | .compose c _ _ => some c
    | _ => none

theorem downloadLoop_eq_zip_flatMap (tmpl : String) (ar : ℚ) (l : List CroppedHandle) (k : ℕ) :
    downloadLoop tmpl ar k l =
      ((List.range' (k + 1) l.length).zip l).flatMap fun p =>
        [.compose p.2 tmpl ar, .save ⟨posterName p.1, p.2, tmpl, ar⟩, .wait 500] := by
  induction l generalizing k with
  | nil => rfl
  | cons c rest ih => simp [downloadLoop, List.range'_succ, ih (k + 1)]

theorem savesOf_downloadLoop (tmpl : String) (ar : ℚ) (l : List CroppedHandle) (k : ℕ) :
    savesOf (downloadLoop tmpl ar k l) =
      ((List.range' (k + 1) l.length).zip l).map fun p =>
        ⟨posterName p.1, p.2, tmpl, ar⟩ := by
  induction l generalizing k with
  | nil => rfl
  | cons c rest ih =>
      simp only [downloadLoop, savesOf, List.filterMap_cons, List.length_cons,
        List.range'_succ, List.zip_cons_cons, List.map_cons]
      exact congrArg _ (ih (k + 1))

theorem composesOf_downloadLoop (tmpl : String) (ar : ℚ) (l : List CroppedHandle) (k : ℕ) :
    composesOf (downloadLoop tmpl ar k l) = l := by
  induction l generalizing k with
  | nil => rfl
  | cons c rest ih =>
      simp only [downloadLoop, composesOf, List.filterMap_cons]
      exact congrArg _ (ih (k + 1))

/-- C7 -- Batch export (`handleDownloadAll`) processes exactly the
committed items, in stable list order, strictly sequentially: for each,
the poster is produced and handed to the download mechanism, followed by
the fixed 500 ms delay, before the next begins; the `n`-th download is
named `poster-<n>.png` (`poster-1.png` … `poster-<count>.png`), and
single export (`handleDownloadSingle`) names its download
`poster-<workItemId>.png`. -/
theorem handleDownloadAll_sequential_naming (s : AppState) (imageId : String) :
    handleDownloadAll s =
      (((List.range' 1 (s.images.filterMap fun img => img.croppedImage).length).zip
          (s.images.filterMap fun img => img.croppedImage)).flatMap fun p =>
        [.compose p.2 s.template s.aspectRatio,
         .save ⟨posterName p.1, p.2, s.template, s.aspectRatio⟩,
         .wait 500]) ∧
    (savesOf (handleDownloadAll s)).map Download.filename =
      (List.range' 1 (s.images.filterMap fun img => img.croppedImage).length).map posterName ∧
    (savesOf (handleDownloadAll s)).map Download.cropped =
      s.images.filterMap (fun img => img.croppedImage) ∧
    ∀ d ∈ savesOf (handleDownloadSingle s imageId),
      d.filename = "poster-" ++ imageId ++ ".png" := by
  have hsingle : ∀ d ∈ savesOf (handleDownloadSingle s imageId),
      d.filename = "poster-" ++ imageId ++ ".png" := by
    intro d hd
    unfold handleDownloadSingle at hd
    split at hd
    · simp [savesOf] at hd
    · split at hd
      · simp [savesOf] at hd
      · simp [savesOf] at hd
        simp [hd]
  by_cases hl : (s.images.filterMap fun img => img.croppedImage).isEmpty
  · rw [List.isEmpty_iff] at hl
    refine ⟨?_, ?_, ?_, hsingle⟩ <;>
      simp [handleDownloadAll, hl, savesOf]
  · have hDA : handleDownloadAll s =
        downloadLoop s.template s.aspectRatio 0 (s.images.filterMap fun img => img.croppedImage) := by
      simp only [handleDownloadAll]
      rw [if_neg hl]
    refine ⟨?_, ?_, ?_, hsingle⟩
    · rw [hDA, downloadLoop_eq_zip_flatMap]
    · rw [hDA, savesOf_downloadLoop, List.map_map]
      have hz := List.map_fst_zip
        (List.range' 1 (s.images.filterMap fun img => img.croppedImage).length)
        (s.images.filterMap fun img => img.croppedImage)
        (by simp [List.length_range'])
      have h1 : (Download.filename ∘ fun p : ℕ × CroppedHandle =>
          (⟨posterName p.1, p.2, s.template, s.aspectRatio⟩ : Download)) =
            posterName ∘ Prod.fst := rfl
      rw [h1, ← List.map_map, hz]
    · rw [hDA, savesOf_downloadLoop, List.map_map]
      have hz := List.map_snd_zip
        (List.range' 1 (s.images.filterMap fun img => img.croppedImage).length)
        (s.images.filterMap fun img => img.croppedImage)
        (by simp [List.length_range'])
      have h1 : (Download.cropped ∘ fun p : ℕ × CroppedHandle =>
          (⟨posterName p.1, p.2, s.template, s.aspectRatio⟩ : Download)) =
            Prod.snd := rfl
      rw [h1, hz]

/-- A committed handle for the demo item "a". -/
def demoCropA : CroppedHandle := ⟨"src-a", ⟨0, 0, 4, 3⟩⟩

/-- A committed handle for the demo item "b". -/
def demoCropB : CroppedHandle := ⟨"src-b", ⟨0, 0, 4, 3⟩⟩

/-- The demo session with both items committed. -/
def demoCommitted : AppState :=
  { images := [{ demoItemA with croppedImage := some demoCropA },
               { demoItemB with croppedImage := some demoCropB }]
    currentImageIndex := 0
    crop := (0, 0)
    zoom := 1
    croppedAreaPixels := none
    aspectRatio := 4 / 3
    template := "template4" }

/-- Witness for C7: in the committed demo session, the single export of
item "a" hands over a download named `poster-a.png`. -/
theorem handleDownloadAll_sequential_naming_witness :
    Download.filename ⟨"poster-" ++ "a" ++ ".png", demoCropA, "template4", 4 / 3⟩ =
      "poster-" ++ "a" ++ ".png" :=
  (handleDownloadAll_sequential_naming demoCommitted "a").2.2.2
    ⟨"poster-" ++ "a" ++ ".png", demoCropA, "template4", 4 / 3⟩ (List.Mem.head _)

/-- C8 -- A poster is only ever generated from a committed `croppedImage`,
never from a `src`: single export produces nothing when the requested item
does not exist or has a null `croppedImage`, and every poster production
of either export handler consumes the committed `croppedImage` of some
WorkItem of the session. -/
theorem poster_requires_committed (s : AppState) (imageId : String) :
    ((s.images.find? fun img => img.id == imageId) = none →
      handleDownloadSingle s imageId = []) ∧
    (∀ img, (s.images.find? fun img2 => img2.id == imageId) = some img →
      img.croppedImage = none → handleDownloadSingle s imageId = []) ∧
    (∀ c ∈ composesOf (handleDownloadAll s),
      ∃ img ∈ s.images, img.croppedImage = some c) ∧
    (∀ c ∈ composesOf (handleDownloadSingle s imageId),
      ∃ img ∈ s.images, img.croppedImage = some c) := by
  refine ⟨?_, ?_, ?_, ?_⟩
  · intro hfind
    unfold handleDownloadSingle
    rw [hfind]
  · intro img hfind hci
    unfold handleDownloadSingle
    rw [hfind]
    have hred : (match img.croppedImage with
        | none => ([] : List ExportAction)
        | some c =>
            [ExportAction.compose c s.template s.aspectRatio,
             ExportAction.save ⟨"poster-" ++ imageId ++ ".png", c, s.template, s.aspectRatio⟩]) =
        [] := by
      rw [hci]
    exact hred
  · intro c hc
    by_cases hl : (s.images.filterMap fun img => img.croppedImage).isEmpty
    · rw [List.isEmpty_iff] at hl
      simp [handleDownloadAll, hl, composesOf] at hc
    · have hDA : handleDownloadAll s =
          downloadLoop s.template s.aspectRatio 0
            (s.images.filterMap fun img => img.croppedImage) := by
        simp only [handleDownloadAll]
        rw [if_neg hl]
      rw [hDA, composesOf_downloadLoop] at hc
      rw [List.mem_filterMap] at hc
      obtain ⟨img, himg, hci⟩ := hc
      exact ⟨img, himg, hci⟩
  · intro c hc
    unfold handleDownloadSingle at hc
    split at hc
    · simp [composesOf] at hc
    · rename_i image hfind
      split at hc
      · simp [composesOf] at hc
      · rename_i c0 hci
        simp [composesOf] at hc
        exact ⟨image, List.mem_of_find?_eq_some hfind, hc ▸ hci⟩

/-- Witness for C8: the nonexistent id "zzz" and the uncommitted item "a"
of the demo session export nothing, and the poster produced by the batch
export of the committed demo session consumes item "a"'s committed
cropped image. -/
theorem poster_requires_committed_witness :
    handleDownloadSingle demoState "zzz" = [] ∧
    handleDownloadSingle demoState "a" = [] ∧
    ∃ img ∈ demoCommitted.images, img.croppedImage = some demoCropA :=
  ⟨(poster_requires_committed demoState "zzz").1 (by decide),
   (poster_requires_committed demoState "a").2.1 demoItemA (by decide) (by decide),
   (poster_requires_committed demoCommitted "x").2.2.1 demoCropA (by decide)⟩

/-- The invariant claimed for the active-item pointer: `-1` (no active
item) or a valid index into the images list. -/
def validIndex (images : List ImageData) (i : ℤ) : Prop :=
  i = -1 ∨ (0 ≤ i ∧ i < (images.length : ℤ))

instance (images : List ImageData) (i : ℤ) : Decidable (validIndex images i) :=
  inferInstanceAs (Decidable (_ ∨ _))

/-- A session holding only the demo item "a", with it active. -/
def demoSolo : AppState :=
  { images := [demoItemA]
    currentImageIndex := 0
    crop := (0, 0)
    zoom := 1
    croppedAreaPixels := none
    aspectRatio := 4 / 3
    template := "template4" }

/-- Counterexample to C9: removing the only WorkItem leaves
`currentImageIndex = Math.max(0, 0 - 1) = 0` over an empty images list —
neither `-1` nor a valid index. -/
theorem removeImage_last_breaks_validIndex :
    (removeImage demoSolo "a").images = [] ∧
    (removeImage demoSolo "a").currentImageIndex = 0 ∧
    ¬ validIndex (removeImage demoSolo "a").images
        (removeImage demoSolo "a").currentImageIndex := by
  refine ⟨by decide, by decide, by decide⟩

/-- C9 (amended) -- After an upload, a camera capture, a grid selection of
an existing index, or a commit, the active-item pointer is `-1` or a
valid index; after a removal from a state satisfying the invariant it is
`-1` or valid as well, except when the removal empties the working set, in
which case it is `0` — and over the empty list the derived current item
is none. -/
theorem activeIndex_validity (decode : String → Option Img) (s : AppState)
    (newImages : List ImageData) (item : ImageData) (i : ℤ) (imageId : String) :
    (newImages ≠ [] →
      validIndex (handleUpload s newImages).images
        (handleUpload s newImages).currentImageIndex) ∧
    validIndex (handleCameraCapture s item).images
      (handleCameraCapture s item).currentImageIndex ∧
    (0 ≤ i → i < (s.images.length : ℤ) →
      validIndex (selectImage s i).images (selectImage s i).currentImageIndex) ∧
    (validIndex s.images s.currentImageIndex →
      validIndex (handleCrop decode s).images (handleCrop decode s).currentImageIndex) ∧
    (validIndex s.images s.currentImageIndex →
      validIndex (removeImage s imageId).images
          (removeImage s imageId).currentImageIndex ∨
        ((removeImage s imageId).images = [] ∧
          (removeImage s imageId).currentImageIndex = 0)) ∧
    ((removeImage s imageId).images = [] →
      currentImage (removeImage s imageId) = none) := by
  refine ⟨?_, ?_, ?_, ?_, ?_, ?_⟩
  · intro h
    cases newImages with
    | nil => exact absurd rfl h
    | cons a rest =>
        simp only [handleUpload, validIndex, List.length_append]
        simp
        omega
  · simp only [handleCameraCapture, validIndex, List.length_append, List.length_cons,
      List.length_nil]
    omega
  · intro h1 h2
    simp only [selectImage, validIndex]
    omega
  · intro hv
    unfold handleCrop
    split
    · exact hv
    · split
      · exact hv
      · split
        · exact hv
        · simpa [validIndex, List.length_mapIdx] using hv
  · intro hv
    by_cases hc : ((s.images.filter fun img => img.id != imageId).length : ℤ) ≤
        s.currentImageIndex
    · by_cases hf : (s.images.filter fun img => img.id != imageId) = []
      · refine Or.inr ⟨by simp [removeImage, hf], ?_⟩
        simp only [removeImage]
        rw [if_pos hc, hf]
        simp only [List.length_nil, Nat.cast_zero, zero_sub]
        exact max_eq_left (by norm_num)
      · refine Or.inl ?_
        have hlen : 0 < (s.images.filter fun img => img.id != imageId).length :=
          List.length_pos.mpr hf
        simp only [removeImage, validIndex]
        rw [if_pos hc]
        refine Or.inr ⟨le_max_left 0 _, ?_⟩
        rw [max_eq_right (by omega : (0 : ℤ) ≤ ((s.images.filter fun img => img.id != imageId).length : ℤ) - 1)]
        omega
    · refine Or.inl ?_
      simp only [validIndex] at hv
      simp only [removeImage, validIndex]
      rw [if_neg hc]
      omega
  · intro h
    simp [currentImage, getAt, h]

/-- Witness for the amended C9: in the one-item demo session, upload,
capture, selection and commit keep the pointer valid, while removing the
only item hits the empty-list clamp (or stays valid) and leaves the
derived current item none. -/
theorem activeIndex_validity_witness :
    validIndex (handleUpload demoSolo [demoItemB]).images
      (handleUpload demoSolo [demoItemB]).currentImageIndex ∧
    (validIndex (removeImage demoSolo "a").images
        (removeImage demoSolo "a").currentImageIndex ∨
      ((removeImage demoSolo "a").images = [] ∧
        (removeImage demoSolo "a").currentImageIndex = 0)) ∧
    currentImage (removeImage demoSolo "a") = none :=
  ⟨(activeIndex_validity demoDecode demoSolo [demoItemB] demoItemB 0 "a").1 (by decide),
   (activeIndex_validity demoDecode demoSolo [demoItemB] demoItemB 0 "a").2.2.2.2.1 (by decide),
   (activeIndex_validity demoDecode demoSolo [demoItemB] demoItemB 0 "a").2.2.2.2.2 (by decide)⟩
